import Mathlib

/-!
Shallow embedding of the asynchronous DNS resolution engine in
source/common/network/dns_impl.cc and the validation stand-in in
source/server/config_validation/dns.cc.

The c-ares library is modelled at its callback boundary: a status code, an
optional addrinfo node list for address lookups, and an optional parsed
SRV-reply list for SRV lookups.  Query objects (PendingResolution,
PendingSrvResolution) become explicit state records; a callback step returns
the observable events (caller callback invocations, deletions), the successor
state (none when the object deleted itself), and the channel dirty flag.
-/

namespace DnsImpl

/-- Status codes from the c-ares callback boundary that dns_impl.cc branches
on: ARES_SUCCESS, ARES_EDESTRUCTION, ARES_ECONNREFUSED, and every other
non-success code collapsed into one constructor. -/
inductive AresStatus
  | success
  | edestruction
  | econnrefused
  | other
deriving DecidableEq, Repr

/-- Address families observed on ares_addrinfo nodes: AF_INET, AF_INET6, and
any other family value (e.g. AF_UNSPEC). -/
inductive AddrFamily
  | inet
  | inet6
  | unspec
deriving DecidableEq, Repr

/-- One ares_addrinfo_node: family, the raw address bits read through the
sockaddr cast, and the per-record ai_ttl. -/
structure AresAddrinfoNode where
  ai_family : AddrFamily
  ai_addr : Nat
  ai_ttl : Nat
deriving DecidableEq, Repr

/-- DnsResolver::ResolutionStatus from the interface header. -/
inductive ResolutionStatus
  | Success
  | Failure
deriving DecidableEq, Repr

/-- DnsLookupFamily from the interface header. -/
inductive DnsLookupFamily
  | V4Only
  | V6Only
  | Auto
deriving DecidableEq, Repr

/-- DnsResponse from the interface header: constructed address (tagged with
the family of the Address instance the code built) plus TTL seconds. -/
structure DnsResponse where
  family : AddrFamily
  addr : Nat
  ttl : Nat
deriving DecidableEq, Repr

/-- One ares_srv_reply record: host, port, priority, weight, ttl. -/
structure SrvReply where
  host : String
  port : Nat
  priority : Nat
  weight : Nat
  ttl : Nat
deriving DecidableEq, Repr

/-- An element of the srv_records list built in onAresSrvStartCallback.  The
first loop emplaces one parsed record per SRV reply; the per-target resolve
callbacks append constructed endpoint instances to the same list. -/
inductive SrvRecordEntry
  | parsedRecord (r : SrvReply)
  | endpoint (addr : Nat) (family : AddrFamily) (port : Nat) (priority : Nat) (weight : Nat)
deriving DecidableEq, Repr

/-- Observable events of a resolver step, in program order. -/
inductive AresEvent
  | callbackInvoked (status : ResolutionStatus) (addresses : List DnsResponse)
  | srvCallbackInvoked (records : List SrvRecordEntry)
  | channelRecreated
  | addrQueryIssued (family : AddrFamily)
  | srvQueryIssued (name : String)
  | deleted
deriving DecidableEq, Repr

/-- Fields of DnsResolverImpl::PendingResolution consulted by dns_impl.cc. -/
structure PendingResolutionState where
  dns_name_ : String
  completed_ : Bool
  cancelled_ : Bool
  owned_ : Bool
  fallback_if_failed_ : Bool
deriving DecidableEq, Repr

/-- Result of one onAresGetAddrInfoCallback step: events, an optional
getAddrInfo reissue (the fallback call at the end of the function), the
successor object state (none when deleted), and the channel dirty flag. -/
structure AddrStepResult where
  events : List AresEvent
  reissue : Option AddrFamily
  state : Option PendingResolutionState
  dirty : Bool
deriving DecidableEq, Repr

/-- The record-conversion block of onAresGetAddrInfoCallback (the two loops
guarded by the first node's ai_family): every node is converted under the
branch selected by the family of the first node, taking each node's own
ai_ttl; any other leading family converts nothing. -/
def convertAddrinfo : List AresAddrinfoNode → List DnsResponse
  | [] => []
  | first :: rest =>
    if first.ai_family = AddrFamily.inet then
      (first :: rest).map (fun ai =>
        { family := AddrFamily.inet, addr := ai.ai_addr, ttl := ai.ai_ttl })
    else if first.ai_family = AddrFamily.inet6 then
      (first :: rest).map (fun ai =>
        { family := AddrFamily.inet6, addr := ai.ai_addr, ttl := ai.ai_ttl })
    else []

/-- The resolution_status assignment in onAresGetAddrInfoCallback. -/
def statusOf (status : AresStatus) : ResolutionStatus :=
  if status = AresStatus.success then ResolutionStatus.Success else ResolutionStatus.Failure

/-- The address_list computed by onAresGetAddrInfoCallback: conversion of the
addrinfo nodes on success, empty otherwise (and empty for a null addrinfo). -/
def addressListOf (status : AresStatus) (addrinfo : Option (List AresAddrinfoNode)) :
    List DnsResponse :=
  if status = AresStatus.success then
    match addrinfo with
    | some nodes => convertAddrinfo nodes
    | none => []
  else []

/-- The dirty_channel_ flag after a non-destruction completion: a
connection-refused outcome on an attempt that has no fallback marks the
channel dirty. -/
def dirtyAfter (st : PendingResolutionState) (dirty_channel : Bool)
    (status : AresStatus) : Bool :=
  if st.fallback_if_failed_ = false ∧ status = AresStatus.econnrefused then true
  else dirty_channel

/-- The completed_ flag after a non-destruction completion: a non-fallback
attempt is completed up front; a non-empty converted answer also completes
the query. -/
def completedAfter (st : PendingResolutionState) (status : AresStatus)
    (addrinfo : Option (List AresAddrinfoNode)) : Bool :=
  if (addressListOf status addrinfo).isEmpty then
    (if st.fallback_if_failed_ then st.completed_ else true)
  else true

/-- DnsResolverImpl::PendingResolution::onAresGetAddrInfoCallback, dns_impl.cc
lines 97-202.  ARES_EDESTRUCTION: raise the failure callback unless cancelled,
then self-delete.  Otherwise: a non-fallback attempt is marked completed up
front and marks the channel dirty on ARES_ECONNREFUSED; the answer is
converted; a non-empty answer also marks completion; a completed query fires
the caller callback unless cancelled and self-deletes when engine owned; an
uncompleted fallback-capable query consumes the fallback flag and reissues
getAddrInfo for AF_INET. -/
def onAresGetAddrInfoCallback (st : PendingResolutionState) (dirty_channel : Bool)
    (status : AresStatus) (addrinfo : Option (List AresAddrinfoNode)) : AddrStepResult :=
  if status = AresStatus.edestruction then
    { events :=
        (if st.cancelled_ then [] else
          [AresEvent.callbackInvoked ResolutionStatus.Failure []]) ++ [AresEvent.deleted],
      reissue := none, state := none, dirty := dirty_channel }
  else if completedAfter st status addrinfo then
    { events :=
        (if st.cancelled_ then [] else
          [AresEvent.callbackInvoked (statusOf status) (addressListOf status addrinfo)]) ++
          (if st.owned_ then [AresEvent.deleted] else []),
      reissue := none,
      state :=
        if st.owned_ then none
        else some { st with completed_ := completedAfter st status addrinfo },
      dirty := dirtyAfter st dirty_channel status }
  else if st.fallback_if_failed_ then
    { events := [],
      reissue := some AddrFamily.inet,
      state := some { st with completed_ := completedAfter st status addrinfo,
                              fallback_if_failed_ := false },
      dirty := dirtyAfter st dirty_channel status }
  else
    { events := [], reissue := none,
      state := some { st with completed_ := completedAfter st status addrinfo },
      dirty := dirtyAfter st dirty_channel status }

/-- What ares_getaddrinfo does synchronously when issued: either it defers to
the event loop, or it invokes the completion callback before returning (the
no-network-I/O path, e.g. a literal address or localhost). -/
inductive SyncAresOutcome
  | deferred
  | immediate (status : AresStatus) (addrinfo : Option (List AresAddrinfoNode))

/-- Drives the synchronous phase of getAddrInfo: issue the request for the
given family; if the library answers immediately, run the callback, and if
the callback reissued (the Auto fallback) repeat for the new family.  Fuel
bounds the recursion; the fallback flag is consumed on reissue, so depth two
suffices. -/
def driveGetAddrInfo (oracle : AddrFamily → SyncAresOutcome) :
    Nat → PendingResolutionState → Bool → AddrFamily → AddrStepResult
  | 0, st, dirty, _ => { events := [], reissue := none, state := some st, dirty := dirty }
  | fuel + 1, st, dirty, family =>
    match oracle family with
    | SyncAresOutcome.deferred =>
      { events := [], reissue := none, state := some st, dirty := dirty }
    | SyncAresOutcome.immediate status addrinfo =>
      let r := onAresGetAddrInfoCallback st dirty status addrinfo
      match r.reissue, r.state with
      | some nextFamily, some stNext =>
        let r2 := driveGetAddrInfo oracle fuel stNext r.dirty nextFamily
        { events := r.events ++ r2.events, reissue := r2.reissue,
          state := r2.state, dirty := r2.dirty }
      | _, _ => { events := r.events, reissue := none, state := r.state, dirty := r.dirty }

/-- Channel-relevant state of DnsResolverImpl: the dirty flag and a
generation counter that records each ares_destroy plus initializeChannel
cycle. -/
structure ResolverState where
  dirty_channel_ : Bool
  channel_generation_ : Nat
deriving DecidableEq, Repr

/-- DnsResolverImpl::initializeChannel: clears the dirty flag and stands up a
fresh channel (generation bump). -/
def initializeChannel (rs : ResolverState) : ResolverState :=
  { dirty_channel_ := false, channel_generation_ := rs.channel_generation_ + 1 }

/-- The family passed to the initial getAddrInfo call in resolve: AF_INET for
V4Only, AF_INET6 for everything else (V6Only and Auto). -/
def initialFamily (family : DnsLookupFamily) : AddrFamily :=
  if family = DnsLookupFamily.V4Only then AddrFamily.inet else AddrFamily.inet6

/-- The PendingResolution constructed by resolve: fresh flags, with
fallback_if_failed_ set exactly for DnsLookupFamily::Auto. -/
def initialPending (dns_name : String) (family : DnsLookupFamily) : PendingResolutionState :=
  { dns_name_ := dns_name, completed_ := false, cancelled_ := false, owned_ := false,
    fallback_if_failed_ := if family = DnsLookupFamily.Auto then true else false }

/-- DnsResolverImpl::preparePendingResolution: a completed resolution returns
a null handle; otherwise the query becomes engine owned and is released as
the caller's handle. -/
def preparePendingResolution (st : PendingResolutionState) : Option PendingResolutionState :=
  if st.completed_ then none else some { st with owned_ := true }

/-- Result of a top-level resolve call: resolver state at return, observable
events in order, and the returned handle (none models nullptr). -/
structure ResolveOutcome where
  resolver : ResolverState
  events : List AresEvent
  handle : Option PendingResolutionState
deriving Repr

/-- DnsResolverImpl::resolve, dns_impl.cc lines 263-289: recreate the channel
if dirty, construct the pending resolution (fallback flag for Auto), issue
getAddrInfo for the initial family, drive any synchronous completion, then
preparePendingResolution decides the returned handle. -/
def resolve (rs : ResolverState) (dns_name : String) (family : DnsLookupFamily)
    (oracle : AddrFamily → SyncAresOutcome) : ResolveOutcome :=
  let rs1 := if rs.dirty_channel_ then initializeChannel rs else rs
  let fam0 := initialFamily family
  let r := driveGetAddrInfo oracle 2 (initialPending dns_name family) rs1.dirty_channel_ fam0
  { resolver :=
      { dirty_channel_ := r.dirty, channel_generation_ := rs1.channel_generation_ },
    events :=
      (if rs.dirty_channel_ then [AresEvent.channelRecreated] else []) ++
        (AresEvent.addrQueryIssued fam0 :: r.events),
    handle :=
      match r.state with
      | some st => preparePendingResolution st
      | none => none }

/-- Fields of DnsResolverImpl::PendingSrvResolution consulted by
dns_impl.cc. -/
structure PendingSrvResolutionState where
  dns_name_ : String
  dns_lookup_family_ : DnsLookupFamily
  completed_ : Bool
  cancelled_ : Bool
  owned_ : Bool
deriving DecidableEq, Repr

/-- Result of onAresSrvFinishCallback: events and successor state (none when
the object deleted itself). -/
structure SrvFinishResult where
  events : List AresEvent
  state : Option PendingSrvResolutionState
deriving DecidableEq, Repr

/-- The completed_ flag of an SRV resolution after onAresSrvFinishCallback
runs with the given record list: a non-empty list marks completion. -/
def srvCompletedAfter (st : PendingSrvResolutionState)
    (srv_records : List SrvRecordEntry) : Bool :=
  if srv_records.isEmpty then st.completed_ else true

/-- DnsResolverImpl::PendingSrvResolution::onAresSrvFinishCallback,
dns_impl.cc lines 381-407: a non-empty record list marks completion; a
completed resolution fires the caller callback unless cancelled and
self-deletes when engine owned; with an empty list and no prior completion
the function returns without invoking anything. -/
def onAresSrvFinishCallback (st : PendingSrvResolutionState)
    (srv_records : List SrvRecordEntry) : SrvFinishResult :=
  if srvCompletedAfter st srv_records then
    { events :=
        (if st.cancelled_ then [] else [AresEvent.srvCallbackInvoked srv_records]) ++
          (if st.owned_ then [AresEvent.deleted] else []),
      state :=
        if st.owned_ then none
        else some { st with completed_ := srvCompletedAfter st srv_records } }
  else
    { events := [], state := some { st with completed_ := srvCompletedAfter st srv_records } }

/-- The shared fan-out accumulator of onAresSrvStartCallback: the completion
counter and the srv_records list that both the parsed records and the
appended endpoints live in. -/
structure SrvBarrierState where
  finished : Nat
  srv_records : List SrvRecordEntry
deriving DecidableEq, Repr

/-- Result of one onAresSrvStartCallback step: events, successor state,
the per-target sub-resolutions issued, and the fan-out accumulator when a
fan-out was started. -/
structure SrvStartResult where
  events : List AresEvent
  state : Option PendingSrvResolutionState
  subResolves : List SrvReply
  barrier : Option SrvBarrierState
deriving DecidableEq, Repr

/-- DnsResolverImpl::PendingSrvResolution::onAresSrvStartCallback,
dns_impl.cc lines 318-379.  ARES_EDESTRUCTION: self-delete with no callback.
Successful lookup and parse: emplace one parsed record per reply into
srv_records, issue one resolver_->resolve per reply with finished = 0, and
set replies_parsed so the finish callback is not invoked here (also when the
reply list is empty).  Any other outcome (non-success status or parse
failure) calls onAresSrvFinishCallback with an empty list. -/
def onAresSrvStartCallback (st : PendingSrvResolutionState) (status : AresStatus)
    (parsed : Option (List SrvReply)) : SrvStartResult :=
  if status = AresStatus.edestruction then
    { events := [AresEvent.deleted], state := none, subResolves := [], barrier := none }
  else if status = AresStatus.success then
    match parsed with
    | some replies =>
      { events := [], state := some st, subResolves := replies,
        barrier := some
          { finished := 0, srv_records := replies.map SrvRecordEntry.parsedRecord } }
    | none =>
      { events := (onAresSrvFinishCallback st []).events,
        state := (onAresSrvFinishCallback st []).state,
        subResolves := [], barrier := none }
  else
    { events := (onAresSrvFinishCallback st []).events,
      state := (onAresSrvFinishCallback st []).state,
      subResolves := [], barrier := none }

/-- Result of one per-target sub-resolution callback: events, successor
state of the owning SRV resolution, and the updated accumulator. -/
structure SrvSubResult where
  events : List AresEvent
  state : Option PendingSrvResolutionState
  barrier : SrvBarrierState
deriving DecidableEq, Repr

/-- The endpoint instances a sub-resolution callback appends: one per
returned address, carrying the owning target's port, priority and weight. -/
def srvEndpointsOf (reply : SrvReply) (response : List DnsResponse) : List SrvRecordEntry :=
  response.map (fun inst =>
    SrvRecordEntry.endpoint inst.addr inst.family reply.port reply.priority reply.weight)

/-- The per-target resolve completion lambda inside onAresSrvStartCallback,
dns_impl.cc lines 349-361, read with finished and srv_records as shared
mutable state of the fan-out: append one endpoint per returned address,
increment finished, and fire onAresSrvFinishCallback exactly when the
incremented counter equals the current length of srv_records. -/
def onSrvSubResolutionCallback (st : PendingSrvResolutionState) (b : SrvBarrierState)
    (reply : SrvReply) (response : List DnsResponse) : SrvSubResult :=
  if b.finished + 1 = (b.srv_records ++ srvEndpointsOf reply response).length then
    { events := (onAresSrvFinishCallback st (b.srv_records ++ srvEndpointsOf reply response)).events,
      state := (onAresSrvFinishCallback st (b.srv_records ++ srvEndpointsOf reply response)).state,
      barrier := { finished := b.finished + 1,
                   srv_records := b.srv_records ++ srvEndpointsOf reply response } }
  else
    { events := [], state := some st,
      barrier := { finished := b.finished + 1,
                   srv_records := b.srv_records ++ srvEndpointsOf reply response } }

/-- preparePendingResolution applied to an SRV pending resolution (the same
base-class logic). -/
def preparePendingSrvResolution (st : PendingSrvResolutionState) :
    Option PendingSrvResolutionState :=
  if st.completed_ then none else some { st with owned_ := true }

/-- The PendingSrvResolution constructed by resolveSrv. -/
def initialSrvPending (dns_name : String) (family : DnsLookupFamily) :
    PendingSrvResolutionState :=
  { dns_name_ := dns_name, dns_lookup_family_ := family,
    completed_ := false, cancelled_ := false, owned_ := false }

/-- Result of a top-level resolveSrv call. -/
structure ResolveSrvOutcome where
  resolver : ResolverState
  events : List AresEvent
  handle : Option PendingSrvResolutionState
  subResolves : List SrvReply
  barrier : Option SrvBarrierState
deriving Repr

/-- DnsResolverImpl::resolveSrv, dns_impl.cc lines 309-316: construct the
pending SRV resolution, issue getSrvByName (with any synchronous completion
given by sync: none models a deferred answer), then preparePendingResolution
decides the handle.  There is no dirty-channel check on this path. -/
def resolveSrv (rs : ResolverState) (dns_name : String) (family : DnsLookupFamily)
    (sync : Option (AresStatus × Option (List SrvReply))) : ResolveSrvOutcome :=
  let st0 := initialSrvPending dns_name family
  match sync with
  | none =>
    { resolver := rs, events := [AresEvent.srvQueryIssued dns_name],
      handle := preparePendingSrvResolution st0, subResolves := [], barrier := none }
  | some (status, parsed) =>
    let r := onAresSrvStartCallback st0 status parsed
    { resolver := rs,
      events := AresEvent.srvQueryIssued dns_name :: r.events,
      handle :=
        match r.state with
        | some st => preparePendingSrvResolution st
        | none => none,
      subResolves := r.subResolves,
      barrier := r.barrier }

/-- Modelled from the spec: the body of ActiveDnsQuery::cancel() lives in
dns_impl.h, which is not among the sources here; the spec says cancel sets
the cancellation flag on the owning query object. -/
def cancel (st : PendingResolutionState) : PendingResolutionState :=
  { st with cancelled_ := true }

/-- Modelled from the spec: cancel on an SRV query object, same flag. -/
def cancelSrv (st : PendingSrvResolutionState) : PendingSrvResolutionState :=
  { st with cancelled_ := true }

/-- A query owned by the engine at destruction time. -/
inductive OwnedQuery
  | addrQuery (st : PendingResolutionState)
  | srvQuery (st : PendingSrvResolutionState)
deriving DecidableEq, Repr

/-- Whether an owned query is an address query. -/
def isAddrQuery : OwnedQuery → Bool
  | OwnedQuery.addrQuery _ => true
  | OwnedQuery.srvQuery _ => false

/-- Whether an owned query has not been cancelled. -/
def queryNotCancelled : OwnedQuery → Prop
  | OwnedQuery.addrQuery st => st.cancelled_ = false
  | OwnedQuery.srvQuery st => st.cancelled_ = false

/-- The ARES_EDESTRUCTION delivery ares_destroy performs for one owned
query: the corresponding completion callback runs with that status. -/
def destroyStep (dirty : Bool) : OwnedQuery → List AresEvent
  | OwnedQuery.addrQuery st =>
    (onAresGetAddrInfoCallback st dirty AresStatus.edestruction none).events
  | OwnedQuery.srvQuery st =>
    (onAresSrvStartCallback st AresStatus.edestruction none).events

/-- The DnsResolverImpl destructor path: ares_destroy delivers
ARES_EDESTRUCTION to every owned outstanding query in turn. -/
def destroyEngine (dirty : Bool) (qs : List OwnedQuery) : List AresEvent :=
  (qs.map (destroyStep dirty)).flatten

/-- Whether an event is an invocation of the caller's callback. -/
def isCallerCallback : AresEvent → Bool
  | AresEvent.callbackInvoked _ _ => true
  | AresEvent.srvCallbackInvoked _ => true
  | _ => false

/-- Number of caller-callback invocations among the events. -/
def callbackCount (events : List AresEvent) : Nat :=
  (events.filter isCallerCallback).length

/-- Runs a sequence of ares completions against one address query object,
stopping if the object deletes itself, and collects all events. -/
def runAddrTrace : PendingResolutionState → Bool →
    List (AresStatus × Option (List AresAddrinfoNode)) → List AresEvent
  | _, _, [] => []
  | st, dirty, (status, addrinfo) :: rest =>
    let r := onAresGetAddrInfoCallback st dirty status addrinfo
    r.events ++
      (match r.state with
       | some stNext => runAddrTrace stNext r.dirty rest
       | none => [])

end DnsImpl

namespace ValidationDnsResolver

open DnsImpl

/-- ValidationDnsResolver::resolve, config_validation/dns.cc: invoke the
callback synchronously with Success and an empty list, return nullptr. -/
def resolve (dns_name : String) (family : DnsLookupFamily) :
    List AresEvent × Option Unit :=
  ([AresEvent.callbackInvoked ResolutionStatus.Success []], none)

/-- ValidationDnsResolver::resolveSrv, config_validation/dns.cc: invoke the
callback synchronously with an empty list, return nullptr. -/
def resolveSrv (dns_name : String) (family : DnsLookupFamily) :
    List AresEvent × Option Unit :=
  ([AresEvent.srvCallbackInvoked []], none)

end ValidationDnsResolver

open DnsImpl

/-- Claim C1 evidence: at the concrete error outcomes of an SRV lookup (a
non-success status, a successful status with a parse failure, and a parse
success with zero discovered targets) the code invokes the caller's callback
zero times, and the pending SRV resolution survives unchanged: the finish
path with an empty list never completes the query, and the zero-target path
never reaches the finish callback at all. -/
theorem C1_srv_error_paths_invoke_no_callback :
    let st : PendingSrvResolutionState :=
      { dns_name_ := "srv.example", dns_lookup_family_ := DnsLookupFamily.Auto,
        completed_ := false, cancelled_ := false, owned_ := true }
    callbackCount (onAresSrvStartCallback st AresStatus.other none).events = 0 ∧
    (onAresSrvStartCallback st AresStatus.other none).state = some st ∧
    callbackCount (onAresSrvStartCallback st AresStatus.success none).events = 0 ∧
    (onAresSrvStartCallback st AresStatus.success none).state = some st ∧
    callbackCount (onAresSrvStartCallback st AresStatus.success (some [])).events = 0 ∧
    (onAresSrvStartCallback st AresStatus.success (some [])).state = some st ∧
    (onAresSrvStartCallback st AresStatus.success (some [])).subResolves = [] := by
  decide

/-- Claim C4 evidence: with one discovered SRV target whose address
resolution returns one address, the completion of that only sub-resolution
does not deliver the aggregate: the barrier compares the incremented counter
(1) against the length of srv_records (2: the parsed record plus the
appended endpoint), so no event fires and the query never completes. -/
theorem C4_barrier_stalls_when_target_yields_addresses :
    let st : PendingSrvResolutionState :=
      { dns_name_ := "srv.example", dns_lookup_family_ := DnsLookupFamily.Auto,
        completed_ := false, cancelled_ := false, owned_ := true }
    let reply : SrvReply :=
      { host := "h.example", port := 80, priority := 1, weight := 5, ttl := 30 }
    let addr : DnsResponse := { family := AddrFamily.inet, addr := 2130706433, ttl := 60 }
    (onAresSrvStartCallback st AresStatus.success (some [reply])).subResolves = [reply] ∧
    (onAresSrvStartCallback st AresStatus.success (some [reply])).barrier =
      some { finished := 0, srv_records := [SrvRecordEntry.parsedRecord reply] } ∧
    (onSrvSubResolutionCallback st
        { finished := 0, srv_records := [SrvRecordEntry.parsedRecord reply] }
        reply [addr]).events = [] ∧
    (onSrvSubResolutionCallback st
        { finished := 0, srv_records := [SrvRecordEntry.parsedRecord reply] }
        reply [addr]).state = some st ∧
    (onSrvSubResolutionCallback st
        { finished := 0, srv_records := [SrvRecordEntry.parsedRecord reply] }
        reply [addr]).barrier.finished = 1 ∧
    (onSrvSubResolutionCallback st
        { finished := 0, srv_records := [SrvRecordEntry.parsedRecord reply] }
        reply [addr]).barrier.srv_records.length = 2 := by
  decide

/-- Claim C9: the validation resolver answers every resolve synchronously
with Success and an empty list and a null handle, and every resolveSrv
synchronously with an empty list and a null handle, for all arguments. -/
theorem C9_validation_resolver_synchronous_empty :
    ∀ (dns_name : String) (family : DnsLookupFamily),
      ValidationDnsResolver.resolve dns_name family =
        ([AresEvent.callbackInvoked ResolutionStatus.Success []], none) ∧
      ValidationDnsResolver.resolveSrv dns_name family =
        ([AresEvent.srvCallbackInvoked []], none) := by
  intro dns_name family
  exact ⟨rfl, rfl⟩

/-- Claim C2 counterexample: a top-level resolveSrv call on a resolver whose
channel is dirty issues the new SRV query without destroying and recreating
the channel: the resolver state is unchanged (still dirty, same channel
generation) and no recreation event occurs, yet the query is issued and a
handle returned. -/
theorem C2_counterexample_resolveSrv_skips_dirty_check :
    (resolveSrv { dirty_channel_ := true, channel_generation_ := 0 } "srv.example"
        DnsLookupFamily.Auto none).resolver =
      { dirty_channel_ := true, channel_generation_ := 0 } ∧
    AresEvent.channelRecreated ∉
      (resolveSrv { dirty_channel_ := true, channel_generation_ := 0 } "srv.example"
        DnsLookupFamily.Auto none).events ∧
    AresEvent.srvQueryIssued "srv.example" ∈
      (resolveSrv { dirty_channel_ := true, channel_generation_ := 0 } "srv.example"
        DnsLookupFamily.Auto none).events ∧
    (resolveSrv { dirty_channel_ := true, channel_generation_ := 0 } "srv.example"
        DnsLookupFamily.Auto none).handle.isSome = true := by
  decide

/-- Claim C3 counterexample: destroying the engine with K = 1 outstanding,
non-cancelled, engine-owned SRV query frees the query with zero caller
callbacks, not the one failure/empty callback the claim requires. -/
theorem C3_counterexample_srv_query_destroyed_without_callback :
    let st : PendingSrvResolutionState :=
      { dns_name_ := "srv.example", dns_lookup_family_ := DnsLookupFamily.Auto,
        completed_ := false, cancelled_ := false, owned_ := true }
    let q := OwnedQuery.srvQuery st
    [q].length = 1 ∧
    st.cancelled_ = false ∧
    st.owned_ = true ∧
    destroyEngine false [q] = [AresEvent.deleted] ∧
    callbackCount (destroyEngine false [q]) = 0 := by
  decide

/-- Claim C7 counterexample: a successful answer of two records whose first
record carries an unknown family (with TTL 5) followed by an IPv4 record
(with TTL 7) is translated into zero ResolvedAddresses: the delivered list is
empty, so not every answer record yields one entry with its own TTL. -/
theorem C7_counterexample_leading_unknown_family_drops_records :
    let n1 : AresAddrinfoNode := { ai_family := AddrFamily.unspec, ai_addr := 1, ai_ttl := 5 }
    let n2 : AresAddrinfoNode := { ai_family := AddrFamily.inet, ai_addr := 2, ai_ttl := 7 }
    let st : PendingResolutionState :=
      { dns_name_ := "host.example", completed_ := false, cancelled_ := false,
        owned_ := true, fallback_if_failed_ := false }
    (convertAddrinfo [n1, n2]).map DnsResponse.ttl ≠ [n1, n2].map AresAddrinfoNode.ai_ttl ∧
    (onAresGetAddrInfoCallback st false AresStatus.success (some [n1, n2])).events =
      [AresEvent.callbackInvoked ResolutionStatus.Success [], AresEvent.deleted] := by
  decide

/-- Counting caller callbacks distributes over event-list concatenation. -/
theorem callbackCount_append (a b : List AresEvent) :
    callbackCount (a ++ b) = callbackCount a + callbackCount b := by
  simp [callbackCount, List.filter_append]

/-- An addrinfo completion step never emits a channel-recreation event. -/
theorem channelRecreated_not_in_addr_step (st : PendingResolutionState) (dirty : Bool)
    (status : AresStatus) (ai : Option (List AresAddrinfoNode)) :
    AresEvent.channelRecreated ∉ (onAresGetAddrInfoCallback st dirty status ai).events := by
  unfold onAresGetAddrInfoCallback
  split_ifs <;> simp

/-- Characterization of a non-destruction addrinfo completion for a
non-cancelled query not yet owned by the engine (the synchronous phase of
resolve): the object survives with the same flags, the caller callback fires
exactly when the step completed the query, and a fallback reissue implies the
query is not completed. -/
theorem addr_step_char (st : PendingResolutionState) (dirty : Bool) (status : AresStatus)
    (ai : Option (List AresAddrinfoNode)) (hst : status ≠ AresStatus.edestruction)
    (hc : st.cancelled_ = false) (ho : st.owned_ = false) :
    ∃ st2, (onAresGetAddrInfoCallback st dirty status ai).state = some st2 ∧
      st2.cancelled_ = false ∧ st2.owned_ = false ∧
      callbackCount (onAresGetAddrInfoCallback st dirty status ai).events =
        (if st2.completed_ then 1 else 0) ∧
      (∀ f, (onAresGetAddrInfoCallback st dirty status ai).reissue = some f →
        st2.completed_ = false) := by
  by_cases hcomp : completedAfter st status ai = true
  · refine ⟨{ st with completed_ := completedAfter st status ai }, ?_, ?_, ?_, ?_, ?_⟩ <;>
      simp [onAresGetAddrInfoCallback, if_neg hst, hc, ho, hcomp, callbackCount,
        isCallerCallback]
  · have hcompf : completedAfter st status ai = false := by
      simpa using hcomp
    by_cases hfb : st.fallback_if_failed_ = true
    · refine ⟨{ st with completed_ := completedAfter st status ai, fallback_if_failed_ := false }, ?_, ?_, ?_, ?_, ?_⟩ <;>
        simp [onAresGetAddrInfoCallback, if_neg hst, hc, ho, hcompf, hfb, callbackCount]
    · exfalso
      have hfb2 : st.fallback_if_failed_ = false := by
        simpa using hfb
      have : completedAfter st status ai = true := by
        simp [completedAfter, hfb2]
      simp_all

/-- A cancelled address query never fires the caller callback in any single
completion step, and the step preserves the cancellation flag. -/
theorem addr_step_cancelled (st : PendingResolutionState) (dirty : Bool)
    (status : AresStatus) (ai : Option (List AresAddrinfoNode))
    (hc : st.cancelled_ = true) :
    callbackCount (onAresGetAddrInfoCallback st dirty status ai).events = 0 ∧
    (∀ st2, (onAresGetAddrInfoCallback st dirty status ai).state = some st2 →
      st2.cancelled_ = true) := by
  constructor
  · unfold onAresGetAddrInfoCallback
    split_ifs <;> simp_all [callbackCount, isCallerCallback]
  · intro st2 hst2
    unfold onAresGetAddrInfoCallback at hst2
    split_ifs at hst2
    all_goals
      first
        | exact Option.noConfusion hst2
        | (obtain rfl := Option.some.inj hst2
           simpa using hc)

/-- Characterization of the synchronous phase of getAddrInfo (no
ARES_EDESTRUCTION can be delivered synchronously): for a fresh, uncompleted,
non-cancelled, unowned query the phase ends with the object alive, flags
preserved, and with exactly one caller callback iff the phase completed the
query. -/
theorem driveGetAddrInfo_char (oracle : AddrFamily → SyncAresOutcome)
    (hor : ∀ f s ai2, oracle f = SyncAresOutcome.immediate s ai2 →
      s ≠ AresStatus.edestruction) :
    ∀ (fuel : Nat) (st : PendingResolutionState) (dirty : Bool) (fam : AddrFamily),
      st.cancelled_ = false → st.owned_ = false → st.completed_ = false →
      ∃ st2, (driveGetAddrInfo oracle fuel st dirty fam).state = some st2 ∧
        st2.cancelled_ = false ∧ st2.owned_ = false ∧
        callbackCount (driveGetAddrInfo oracle fuel st dirty fam).events =
          (if st2.completed_ then 1 else 0) := by
  intro fuel
  induction fuel with
  | zero =>
    intro st dirty fam hc ho hcomp
    exact ⟨st, rfl, hc, ho, by simp [driveGetAddrInfo, callbackCount, hcomp]⟩
  | succ n ih =>
    intro st dirty fam hc ho hcomp
    cases horacle : oracle fam with
    | deferred =>
      refine ⟨st, ?_, hc, ho, ?_⟩ <;>
        simp [driveGetAddrInfo, horacle, callbackCount, hcomp]
    | immediate s ai =>
      have hs := hor fam s ai horacle
      obtain ⟨st1, hstate, hc1, ho1, hcount, hreissue⟩ := addr_step_char st dirty s ai hs hc ho
      cases hre : (onAresGetAddrInfoCallback st dirty s ai).reissue with
      | none =>
        refine ⟨st1, ?_, hc1, ho1, ?_⟩ <;>
          simp [driveGetAddrInfo, horacle, hre, hstate, hcount]
      | some f2 =>
        have hcomp1 := hreissue f2 hre
        obtain ⟨st2, hstate2, hc2, ho2, hcount2⟩ :=
          ih st1 (onAresGetAddrInfoCallback st dirty s ai).dirty f2 hc1 ho1 hcomp1
        refine ⟨st2, ?_, hc2, ho2, ?_⟩
        · simp [driveGetAddrInfo, horacle, hre, hstate, hstate2]
        · simp [driveGetAddrInfo, horacle, hre, hstate, callbackCount_append, hcount,
            hcount2, hcomp1]

/-- The synchronous phase of getAddrInfo never emits a channel-recreation
event. -/
theorem channelRecreated_not_in_drive (oracle : AddrFamily → SyncAresOutcome) :
    ∀ (fuel : Nat) (st : PendingResolutionState) (dirty : Bool) (fam : AddrFamily),
      AresEvent.channelRecreated ∉ (driveGetAddrInfo oracle fuel st dirty fam).events := by
  intro fuel
  induction fuel with
  | zero => intro st dirty fam; simp [driveGetAddrInfo]
  | succ n ih =>
    intro st dirty fam
    cases horacle : oracle fam with
    | deferred => simp [driveGetAddrInfo, horacle]
    | immediate s ai =>
      have h1 := channelRecreated_not_in_addr_step st dirty s ai
      cases hre : (onAresGetAddrInfoCallback st dirty s ai).reissue with
      | none => simp [driveGetAddrInfo, horacle, hre, h1]
      | some f2 =>
        cases hstate : (onAresGetAddrInfoCallback st dirty s ai).state with
        | none => simp [driveGetAddrInfo, horacle, hre, hstate, h1]
        | some st1 => simp [driveGetAddrInfo, horacle, hre, hstate, h1, ih]

/-- The SRV finish callback never emits a channel-recreation event. -/
theorem channelRecreated_not_in_srv_finish (st : PendingSrvResolutionState)
    (records : List SrvRecordEntry) :
    AresEvent.channelRecreated ∉ (onAresSrvFinishCallback st records).events := by
  unfold onAresSrvFinishCallback
  split_ifs <;> simp

/-- The SRV start callback never emits a channel-recreation event. -/
theorem channelRecreated_not_in_srv_start (st : PendingSrvResolutionState)
    (status : AresStatus) (parsed : Option (List SrvReply)) :
    AresEvent.channelRecreated ∉ (onAresSrvStartCallback st status parsed).events := by
  unfold onAresSrvStartCallback
  split_ifs
  · simp
  · cases parsed <;> simp [channelRecreated_not_in_srv_finish]
  · simp [channelRecreated_not_in_srv_finish]

/-- A cancelled SRV resolution never fires the caller callback from the
finish path, and the step preserves the cancellation flag. -/
theorem srv_finish_cancelled (st : PendingSrvResolutionState)
    (records : List SrvRecordEntry) (hc : st.cancelled_ = true) :
    callbackCount (onAresSrvFinishCallback st records).events = 0 ∧
    (∀ st2, (onAresSrvFinishCallback st records).state = some st2 →
      st2.cancelled_ = true) := by
  constructor
  · unfold onAresSrvFinishCallback
    split_ifs <;> simp_all [callbackCount, isCallerCallback]
  · intro st2 hst2
    unfold onAresSrvFinishCallback at hst2
    split_ifs at hst2
    all_goals
      first
        | exact Option.noConfusion hst2
        | (obtain rfl := Option.some.inj hst2
           simpa using hc)

/-- A cancelled SRV resolution never fires the caller callback from the
start path, and the step preserves the cancellation flag. -/
theorem srv_start_cancelled (st : PendingSrvResolutionState) (status : AresStatus)
    (parsed : Option (List SrvReply)) (hc : st.cancelled_ = true) :
    callbackCount (onAresSrvStartCallback st status parsed).events = 0 ∧
    (∀ st2, (onAresSrvStartCallback st status parsed).state = some st2 →
      st2.cancelled_ = true) := by
  have hf := srv_finish_cancelled st [] hc
  unfold onAresSrvStartCallback
  split_ifs
  · constructor
    · simp [callbackCount, isCallerCallback]
    · intro st2 h
      exact h.elim
  · cases parsed with
    | some replies =>
      constructor
      · simp [callbackCount]
      · intro st2 h
        obtain rfl := Option.some.inj h
        exact hc
    | none =>
      constructor
      · simpa using hf.1
      · simpa using hf.2
  · constructor
    · simpa using hf.1
    · simpa using hf.2

/-- A cancelled SRV resolution never fires the caller callback from a
sub-resolution completion, and the step preserves the cancellation flag. -/
theorem srv_sub_cancelled (st : PendingSrvResolutionState) (b : SrvBarrierState)
    (reply : SrvReply) (response : List DnsResponse) (hc : st.cancelled_ = true) :
    callbackCount (onSrvSubResolutionCallback st b reply response).events = 0 ∧
    (∀ st2, (onSrvSubResolutionCallback st b reply response).state = some st2 →
      st2.cancelled_ = true) := by
  have hf := srv_finish_cancelled st (b.srv_records ++ srvEndpointsOf reply response) hc
  unfold onSrvSubResolutionCallback
  split_ifs
  · constructor
    · simpa using hf.1
    · simpa using hf.2
  · constructor
    · simp [callbackCount]
    · intro st2 h
      obtain rfl := Option.some.inj h
      exact hc

/-- A cancelled address query never fires the caller callback across any
sequence of completions. -/
theorem runAddrTrace_cancelled :
    ∀ (trace : List (AresStatus × Option (List AresAddrinfoNode)))
      (st : PendingResolutionState) (dirty : Bool), st.cancelled_ = true →
      callbackCount (runAddrTrace st dirty trace) = 0 := by
  intro trace
  induction trace with
  | nil =>
    intro st dirty hc
    simp [runAddrTrace, callbackCount]
  | cons p rest ih =>
    intro st dirty hc
    obtain ⟨status, ainfo⟩ := p
    obtain ⟨hcount, hpres⟩ := addr_step_cancelled st dirty status ainfo hc
    cases hstate : (onAresGetAddrInfoCallback st dirty status ainfo).state with
    | none => simp [runAddrTrace, hstate, callbackCount_append, hcount]
    | some st1 =>
      have hc1 := hpres st1 hstate
      simp [runAddrTrace, hstate, callbackCount_append, hcount, ih st1 _ hc1]

/-- Claim C6: once the cancellation flag is set (which is all cancel() does,
per the interface contract), the caller's callback is never invoked
afterwards: the flag-setting itself, zero callbacks over any sequence of
later address-query completions (including ARES_EDESTRUCTION at engine
destruction), and zero callbacks with flag preservation at every SRV entry
point (lookup completion, fan-out sub-resolution completion, finish
delivery). -/
theorem C6_cancelled_query_never_gets_callback :
    (∀ st : PendingResolutionState, (cancel st).cancelled_ = true) ∧
    (∀ st : PendingSrvResolutionState, (cancelSrv st).cancelled_ = true) ∧
    (∀ (st : PendingResolutionState) (dirty : Bool)
        (trace : List (AresStatus × Option (List AresAddrinfoNode))),
      st.cancelled_ = true → callbackCount (runAddrTrace st dirty trace) = 0) ∧
    (∀ (st : PendingSrvResolutionState) (status : AresStatus)
        (parsed : Option (List SrvReply)), st.cancelled_ = true →
      callbackCount (onAresSrvStartCallback st status parsed).events = 0 ∧
      (∀ st2, (onAresSrvStartCallback st status parsed).state = some st2 →
        st2.cancelled_ = true)) ∧
    (∀ (st : PendingSrvResolutionState) (b : SrvBarrierState) (reply : SrvReply)
        (response : List DnsResponse), st.cancelled_ = true →
      callbackCount (onSrvSubResolutionCallback st b reply response).events = 0 ∧
      (∀ st2, (onSrvSubResolutionCallback st b reply response).state = some st2 →
        st2.cancelled_ = true)) ∧
    (∀ (st : PendingSrvResolutionState) (records : List SrvRecordEntry),
      st.cancelled_ = true →
      callbackCount (onAresSrvFinishCallback st records).events = 0 ∧
      (∀ st2, (onAresSrvFinishCallback st records).state = some st2 →
        st2.cancelled_ = true)) := by
  refine ⟨fun st => rfl, fun st => rfl, ?_, ?_, ?_, ?_⟩
  · intro st dirty trace hc
    exact runAddrTrace_cancelled trace st dirty hc
  · intro st status parsed hc
    exact srv_start_cancelled st status parsed hc
  · intro st b reply response hc
    exact srv_sub_cancelled st b reply response hc
  · intro st records hc
    exact srv_finish_cancelled st records hc

/-- Witness for C6: a concrete cancelled query whose request later completes
successfully and then receives the destruction outcome fires zero caller
callbacks. -/
theorem C6_witness :
    callbackCount (runAddrTrace
      { dns_name_ := "host.example", completed_ := false, cancelled_ := true,
        owned_ := true, fallback_if_failed_ := false } false
      [(AresStatus.success,
        some [{ ai_family := AddrFamily.inet, ai_addr := 3, ai_ttl := 9 }]),
       (AresStatus.edestruction, none)]) = 0 :=
  C6_cancelled_query_never_gets_callback.2.2.1
    { dns_name_ := "host.example", completed_ := false, cancelled_ := true,
      owned_ := true, fallback_if_failed_ := false } false
    [(AresStatus.success,
      some [{ ai_family := AddrFamily.inet, ai_addr := 3, ai_ttl := 9 }]),
     (AresStatus.edestruction, none)] rfl

/-- Claim C7 amended: on a successful final (non-fallback) address resolution
whose first answer record is an IPv4 or IPv6 record, every answer record is
translated into exactly one ResolvedAddress whose TTL equals that specific
record's own TTL, and the resulting list is what the caller callback
delivers. -/
theorem C7_per_record_ttl_preserved :
    ∀ (st : PendingResolutionState) (dirty : Bool) (first : AresAddrinfoNode)
      (rest : List AresAddrinfoNode),
      st.fallback_if_failed_ = false → st.cancelled_ = false →
      (first.ai_family = AddrFamily.inet ∨ first.ai_family = AddrFamily.inet6) →
      (convertAddrinfo (first :: rest)).length = (first :: rest).length ∧
      (convertAddrinfo (first :: rest)).map DnsResponse.ttl =
        (first :: rest).map AresAddrinfoNode.ai_ttl ∧
      AresEvent.callbackInvoked ResolutionStatus.Success (convertAddrinfo (first :: rest)) ∈
        (onAresGetAddrInfoCallback st dirty AresStatus.success
          (some (first :: rest))).events := by
  intro st dirty first rest hfb hc hfam
  refine ⟨?_, ?_, ?_⟩
  · rcases hfam with h | h <;> simp [convertAddrinfo, h]
  · rcases hfam with h | h <;> simp [convertAddrinfo, h]
  · have hcompl : completedAfter st AresStatus.success (some (first :: rest)) = true := by
      simp [completedAfter, hfb]
    simp [onAresGetAddrInfoCallback, hcompl, hc, addressListOf, statusOf]

/-- Witness for C7: two IPv4 records with differing TTLs (5 and 7) each keep
their own TTL in the translated list. -/
theorem C7_witness :
    (convertAddrinfo
        [{ ai_family := AddrFamily.inet, ai_addr := 1, ai_ttl := 5 },
         { ai_family := AddrFamily.inet, ai_addr := 2, ai_ttl := 7 }]).map DnsResponse.ttl =
      [{ ai_family := AddrFamily.inet, ai_addr := 1, ai_ttl := 5 },
       { ai_family := AddrFamily.inet, ai_addr := 2, ai_ttl := 7 }].map
        AresAddrinfoNode.ai_ttl :=
  (C7_per_record_ttl_preserved
    { dns_name_ := "host.example", completed_ := false, cancelled_ := false,
      owned_ := true, fallback_if_failed_ := false } false
    { ai_family := AddrFamily.inet, ai_addr := 1, ai_ttl := 5 }
    [{ ai_family := AddrFamily.inet, ai_addr := 2, ai_ttl := 7 }] rfl rfl
    (Or.inl rfl)).2.1

/-- Claim C10: the conversion of a successful answer branches solely on the
first record's family: a leading IPv4 record converts every record under the
IPv4 branch, a leading IPv6 record converts every record under the IPv6
branch, and a leading record of any other family converts nothing, making a
successful answer deliver Success with an empty list. -/
theorem C10_conversion_follows_first_record_family :
    ∀ (first : AresAddrinfoNode) (rest : List AresAddrinfoNode)
      (st : PendingResolutionState) (dirty : Bool),
      (first.ai_family = AddrFamily.inet →
        convertAddrinfo (first :: rest) = (first :: rest).map (fun ai =>
          { family := AddrFamily.inet, addr := ai.ai_addr, ttl := ai.ai_ttl })) ∧
      (first.ai_family = AddrFamily.inet6 →
        convertAddrinfo (first :: rest) = (first :: rest).map (fun ai =>
          { family := AddrFamily.inet6, addr := ai.ai_addr, ttl := ai.ai_ttl })) ∧
      (first.ai_family ≠ AddrFamily.inet → first.ai_family ≠ AddrFamily.inet6 →
        convertAddrinfo (first :: rest) = [] ∧
        (st.fallback_if_failed_ = false → st.cancelled_ = false →
          AresEvent.callbackInvoked ResolutionStatus.Success [] ∈
            (onAresGetAddrInfoCallback st dirty AresStatus.success
              (some (first :: rest))).events)) := by
  intro first rest st dirty
  refine ⟨?_, ?_, ?_⟩
  · intro h
    simp [convertAddrinfo, h]
  · intro h
    simp [convertAddrinfo, h]
  · intro h1 h2
    have hconv : convertAddrinfo (first :: rest) = [] := by
      simp [convertAddrinfo, h1, h2]
    refine ⟨hconv, ?_⟩
    intro hfb hc
    have hal : addressListOf AresStatus.success (some (first :: rest)) = [] := by
      simp [addressListOf, hconv]
    have hcompl : completedAfter st AresStatus.success (some (first :: rest)) = true := by
      simp [completedAfter, hal, hfb]
    simp [onAresGetAddrInfoCallback, hcompl, hc, hal, statusOf]

/-- Witness for C10: a concrete answer led by an unknown-family record
followed by an IPv6 record converts to the empty list. -/
theorem C10_witness :
    convertAddrinfo
      [{ ai_family := AddrFamily.unspec, ai_addr := 1, ai_ttl := 5 },
       { ai_family := AddrFamily.inet6, ai_addr := 2, ai_ttl := 7 }] = [] := by
  have h := C10_conversion_follows_first_record_family
    { ai_family := AddrFamily.unspec, ai_addr := 1, ai_ttl := 5 }
    [{ ai_family := AddrFamily.inet6, ai_addr := 2, ai_ttl := 7 }]
    { dns_name_ := "host.example", completed_ := false, cancelled_ := false,
      owned_ := true, fallback_if_failed_ := false } false
  exact (h.2.2 (by decide) (by decide)).1

/-- Claim C5: a resolve with family Auto issues its first request for IPv6
(with the fallback flag set); on a normal completion of that first attempt,
the single IPv4 fallback reissue happens if and only if the attempt produced
zero addresses, in which case the fallback flag is consumed before the
reissue and no callback fires for the discarded attempt; a first attempt
with addresses is delivered directly; and the reissued attempt never
reissues again and always delivers its own result to the caller. -/
theorem C5_auto_family_v6_first_fallback_once :
    (∀ (dns_name : String) (rs : ResolverState) (oracle : AddrFamily → SyncAresOutcome),
      initialFamily DnsLookupFamily.Auto = AddrFamily.inet6 ∧
      (initialPending dns_name DnsLookupFamily.Auto).fallback_if_failed_ = true ∧
      ∃ tl, (resolve rs dns_name DnsLookupFamily.Auto oracle).events =
        (if rs.dirty_channel_ then [AresEvent.channelRecreated] else []) ++
          AresEvent.addrQueryIssued AddrFamily.inet6 :: tl) ∧
    (∀ (st : PendingResolutionState) (dirty : Bool) (status : AresStatus)
        (ai : Option (List AresAddrinfoNode)),
      st.fallback_if_failed_ = true → st.completed_ = false → st.cancelled_ = false →
      status ≠ AresStatus.edestruction →
      (((onAresGetAddrInfoCallback st dirty status ai).reissue = some AddrFamily.inet) ↔
        addressListOf status ai = []) ∧
      (addressListOf status ai = [] →
        (onAresGetAddrInfoCallback st dirty status ai).events = [] ∧
        (onAresGetAddrInfoCallback st dirty status ai).state =
          some { st with fallback_if_failed_ := false }) ∧
      (addressListOf status ai ≠ [] →
        (onAresGetAddrInfoCallback st dirty status ai).reissue = none ∧
        AresEvent.callbackInvoked (statusOf status) (addressListOf status ai) ∈
          (onAresGetAddrInfoCallback st dirty status ai).events) ∧
      (∀ (status2 : AresStatus) (ai2 : Option (List AresAddrinfoNode)),
        status2 ≠ AresStatus.edestruction →
        (onAresGetAddrInfoCallback { st with fallback_if_failed_ := false } dirty status2
            ai2).reissue = none ∧
        AresEvent.callbackInvoked (statusOf status2) (addressListOf status2 ai2) ∈
          (onAresGetAddrInfoCallback { st with fallback_if_failed_ := false } dirty status2
            ai2).events)) := by
  constructor
  · intro dns_name rs oracle
    refine ⟨rfl, rfl, ?_⟩
    exact ⟨_, rfl⟩
  · intro st dirty status ai hfb hcomp hc hst
    have hsecond : ∀ (status2 : AresStatus) (ai2 : Option (List AresAddrinfoNode)),
        status2 ≠ AresStatus.edestruction →
        (onAresGetAddrInfoCallback { st with fallback_if_failed_ := false } dirty status2
            ai2).reissue = none ∧
        AresEvent.callbackInvoked (statusOf status2) (addressListOf status2 ai2) ∈
          (onAresGetAddrInfoCallback { st with fallback_if_failed_ := false } dirty status2
            ai2).events := by
      intro status2 ai2 hst2
      constructor
      · simp [onAresGetAddrInfoCallback, if_neg hst2, completedAfter]
      · simp [onAresGetAddrInfoCallback, if_neg hst2, completedAfter, hc]
    by_cases hemp : addressListOf status ai = []
    · have hcompf : completedAfter st status ai = false := by
        simp [completedAfter, hemp, hfb, hcomp]
      refine ⟨?_, ?_, ?_, hsecond⟩
      · simp [onAresGetAddrInfoCallback, if_neg hst, hcompf, hfb, hemp]
      · intro _
        have hstate : ({ st with completed_ := completedAfter st status ai, fallback_if_failed_ := false } : PendingResolutionState) = { st with fallback_if_failed_ := false } := by
          have h1 : completedAfter st status ai = st.completed_ := by
            rw [hcompf, hcomp]
          cases st
          simp_all
        constructor
        · simp [onAresGetAddrInfoCallback, if_neg hst, hcompf, hfb]
        · simp [onAresGetAddrInfoCallback, if_neg hst, hcompf, hfb, hstate, hcomp]
      · intro h
        exact absurd hemp h
    · have hne : (addressListOf status ai).isEmpty = false := by
        cases hcase : addressListOf status ai with
        | nil => exact absurd hcase hemp
        | cons a l => rfl
      have hcompt : completedAfter st status ai = true := by
        simp [completedAfter, hne]
      refine ⟨?_, ?_, ?_, hsecond⟩
      · simp [onAresGetAddrInfoCallback, if_neg hst, hcompt, hemp]
      · intro h
        exact absurd h hemp
      · intro _
        constructor
        · simp [onAresGetAddrInfoCallback, if_neg hst, hcompt]
        · simp [onAresGetAddrInfoCallback, if_neg hst, hcompt, hc]

/-- Witness for C5: a concrete Auto query whose first attempt fails with a
non-success status gets the IPv4 fallback reissued. -/
theorem C5_witness :
    (onAresGetAddrInfoCallback
      { dns_name_ := "host.example", completed_ := false, cancelled_ := false,
        owned_ := true, fallback_if_failed_ := true } false AresStatus.other none).reissue =
      some AddrFamily.inet := by
  have h := C5_auto_family_v6_first_fallback_once.2
    { dns_name_ := "host.example", completed_ := false, cancelled_ := false,
      owned_ := true, fallback_if_failed_ := true } false AresStatus.other none
    rfl rfl rfl (by decide)
  exact h.1.mpr (by decide)

/-- The caller-callback count of a resolve call equals that of its
synchronous getAddrInfo phase: the channel-recreation and query-issue events
are not caller callbacks. -/
theorem resolve_events_callbackCount (rs : ResolverState) (dns_name : String)
    (family : DnsLookupFamily) (oracle : AddrFamily → SyncAresOutcome) :
    callbackCount (resolve rs dns_name family oracle).events =
      callbackCount (driveGetAddrInfo oracle 2 (initialPending dns_name family)
        (if rs.dirty_channel_ then initializeChannel rs else rs).dirty_channel_
        (initialFamily family)).events := by
  cases hd : rs.dirty_channel_ <;>
    simp [resolve, hd, callbackCount, List.filter_append, isCallerCallback]

/-- The handle returned by resolve is preparePendingResolution applied to the
state at the end of the synchronous phase. -/
theorem resolve_handle_eq (rs : ResolverState) (dns_name : String)
    (family : DnsLookupFamily) (oracle : AddrFamily → SyncAresOutcome)
    (st2 : PendingResolutionState)
    (h : (driveGetAddrInfo oracle 2 (initialPending dns_name family)
        (if rs.dirty_channel_ then initializeChannel rs else rs).dirty_channel_
        (initialFamily family)).state = some st2) :
    (resolve rs dns_name family oracle).handle = preparePendingResolution st2 := by
  simp [resolve, h]

/-- Claim C8: resolve and resolveSrv return a null handle exactly when the
request completed during the synchronous phase, in which case the caller's
callback has been invoked exactly once before the call returns; otherwise no
callback has fired and the returned non-null handle refers to an engine-owned
query.  The hypotheses say only that the library cannot deliver
ARES_EDESTRUCTION synchronously (that status exists only during
ares_destroy). -/
theorem C8_null_handle_iff_synchronous_completion :
    (∀ (rs : ResolverState) (dns_name : String) (family : DnsLookupFamily)
        (oracle : AddrFamily → SyncAresOutcome),
      (∀ f s ai, oracle f = SyncAresOutcome.immediate s ai →
        s ≠ AresStatus.edestruction) →
      ((resolve rs dns_name family oracle).handle = none ↔
        callbackCount (resolve rs dns_name family oracle).events = 1) ∧
      ((resolve rs dns_name family oracle).handle = none ∨
        callbackCount (resolve rs dns_name family oracle).events = 0) ∧
      (∀ h, (resolve rs dns_name family oracle).handle = some h → h.owned_ = true)) ∧
    (∀ (rs : ResolverState) (dns_name : String) (family : DnsLookupFamily)
        (sync : Option (AresStatus × Option (List SrvReply))),
      (∀ s parsed, sync = some (s, parsed) → s ≠ AresStatus.edestruction) →
      ((resolveSrv rs dns_name family sync).handle = none ↔
        callbackCount (resolveSrv rs dns_name family sync).events = 1) ∧
      ((resolveSrv rs dns_name family sync).handle = none ∨
        callbackCount (resolveSrv rs dns_name family sync).events = 0) ∧
      (∀ h, (resolveSrv rs dns_name family sync).handle = some h →
        h.owned_ = true)) := by
  constructor
  · intro rs dns_name family oracle hor
    obtain ⟨st2, hstate, hc2, ho2, hcount⟩ :=
      driveGetAddrInfo_char oracle hor 2 (initialPending dns_name family)
        (if rs.dirty_channel_ then initializeChannel rs else rs).dirty_channel_
        (initialFamily family) rfl rfl rfl
    have hh := resolve_handle_eq rs dns_name family oracle st2 hstate
    have he := resolve_events_callbackCount rs dns_name family oracle
    refine ⟨?_, ?_, ?_⟩
    · rw [hh, he, hcount]
      cases hc3 : st2.completed_ <;> simp [preparePendingResolution, hc3]
    · rw [hh, he, hcount]
      cases hc3 : st2.completed_ <;> simp [preparePendingResolution, hc3]
    · intro h hsome
      rw [hh] at hsome
      unfold preparePendingResolution at hsome
      split_ifs at hsome
      all_goals
        first
          | exact Option.noConfusion hsome
          | (obtain rfl := Option.some.inj hsome
             rfl)
  · intro rs dns_name family sync hsync
    cases sync with
    | none =>
      refine ⟨?_, ?_, ?_⟩ <;>
        simp [resolveSrv, preparePendingSrvResolution, initialSrvPending,
          callbackCount, isCallerCallback]
    | some p =>
      obtain ⟨s, parsed⟩ := p
      have hs := hsync s parsed rfl
      cases s with
      | edestruction => exact absurd rfl hs
      | success =>
        cases parsed with
        | some replies =>
          refine ⟨?_, ?_, ?_⟩ <;>
            simp [resolveSrv, onAresSrvStartCallback, preparePendingSrvResolution,
              initialSrvPending, callbackCount, isCallerCallback]
        | none =>
          refine ⟨?_, ?_, ?_⟩ <;>
            simp [resolveSrv, onAresSrvStartCallback, onAresSrvFinishCallback,
              srvCompletedAfter, preparePendingSrvResolution, initialSrvPending,
              callbackCount, isCallerCallback]
      | econnrefused =>
        refine ⟨?_, ?_, ?_⟩ <;>
          simp [resolveSrv, onAresSrvStartCallback, onAresSrvFinishCallback,
            srvCompletedAfter, preparePendingSrvResolution, initialSrvPending,
            callbackCount, isCallerCallback]
      | other =>
        refine ⟨?_, ?_, ?_⟩ <;>
          simp [resolveSrv, onAresSrvStartCallback, onAresSrvFinishCallback,
            srvCompletedAfter, preparePendingSrvResolution, initialSrvPending,
            callbackCount, isCallerCallback]

/-- Witness for C8: a concrete resolve answered synchronously with one IPv4
address returns a null handle. -/
theorem C8_witness :
    (resolve { dirty_channel_ := false, channel_generation_ := 0 } "localhost"
      DnsLookupFamily.V4Only
      (fun _ => SyncAresOutcome.immediate AresStatus.success
        (some [{ ai_family := AddrFamily.inet, ai_addr := 2130706433, ai_ttl := 60 }]))).handle
      = none := by
  have h := C8_null_handle_iff_synchronous_completion.1
    { dirty_channel_ := false, channel_generation_ := 0 } "localhost"
    DnsLookupFamily.V4Only
    (fun _ => SyncAresOutcome.immediate AresStatus.success
      (some [{ ai_family := AddrFamily.inet, ai_addr := 2130706433, ai_ttl := 60 }]))
    (by
      intro f s ai hh
      injection hh with h1 h2
      subst h1
      decide)
  exact h.1.mpr (by decide)

/-- Claim C2 amended: a top-level resolve on a dirty channel destroys and
recreates the channel (generation bump, recreation event preceding the query
issue); a resolve on a clean channel never recreates it; and resolveSrv
leaves the resolver's channel state untouched and never recreates,
regardless of the dirty flag. -/
theorem C2_dirty_channel_recreated_on_resolve_only :
    (∀ (rs : ResolverState) (dns_name : String) (family : DnsLookupFamily)
        (oracle : AddrFamily → SyncAresOutcome),
      rs.dirty_channel_ = true →
      (∃ tl, (resolve rs dns_name family oracle).events =
        AresEvent.channelRecreated ::
          AresEvent.addrQueryIssued (initialFamily family) :: tl) ∧
      (resolve rs dns_name family oracle).resolver.channel_generation_ =
        rs.channel_generation_ + 1) ∧
    (∀ (rs : ResolverState) (dns_name : String) (family : DnsLookupFamily)
        (oracle : AddrFamily → SyncAresOutcome),
      rs.dirty_channel_ = false →
      AresEvent.channelRecreated ∉ (resolve rs dns_name family oracle).events) ∧
    (∀ (rs : ResolverState) (dns_name : String) (family : DnsLookupFamily)
        (sync : Option (AresStatus × Option (List SrvReply))),
      (resolveSrv rs dns_name family sync).resolver = rs ∧
      AresEvent.channelRecreated ∉ (resolveSrv rs dns_name family sync).events) := by
  refine ⟨?_, ?_, ?_⟩
  · intro rs dns_name family oracle hd
    constructor
    · refine ⟨(driveGetAddrInfo oracle 2 (initialPending dns_name family)
        (initializeChannel rs).dirty_channel_ (initialFamily family)).events, ?_⟩
      simp [resolve, hd]
    · simp [resolve, hd, initializeChannel]
  · intro rs dns_name family oracle hd
    simp [resolve, hd, channelRecreated_not_in_drive]
  · intro rs dns_name family sync
    cases sync with
    | none => exact ⟨rfl, by simp [resolveSrv]⟩
    | some p =>
      obtain ⟨s, parsed⟩ := p
      exact ⟨rfl, by simp [resolveSrv, channelRecreated_not_in_srv_start]⟩

/-- Witness for C2: a concrete resolve on a dirty channel bumps the channel
generation. -/
theorem C2_witness :
    (resolve { dirty_channel_ := true, channel_generation_ := 0 } "host.example"
      DnsLookupFamily.V4Only
      (fun _ => SyncAresOutcome.deferred)).resolver.channel_generation_ = 1 :=
  (C2_dirty_channel_recreated_on_resolve_only.1
    { dirty_channel_ := true, channel_generation_ := 0 } "host.example"
    DnsLookupFamily.V4Only (fun _ => SyncAresOutcome.deferred) rfl).2

/-- Destruction delivery decomposes over the outstanding query list. -/
theorem destroyEngine_cons (dirty : Bool) (q : OwnedQuery) (rest : List OwnedQuery) :
    destroyEngine dirty (q :: rest) = destroyStep dirty q ++ destroyEngine dirty rest := by
  simp [destroyEngine]

/-- A non-cancelled address query receiving ARES_EDESTRUCTION fires the
failure/empty callback and is then freed. -/
theorem destroyStep_addr (dirty : Bool) (st : PendingResolutionState)
    (hc : st.cancelled_ = false) :
    destroyStep dirty (OwnedQuery.addrQuery st) =
      [AresEvent.callbackInvoked ResolutionStatus.Failure [], AresEvent.deleted] := by
  simp [destroyStep, onAresGetAddrInfoCallback, hc]

/-- An SRV query receiving ARES_EDESTRUCTION is freed with no callback. -/
theorem destroyStep_srv (dirty : Bool) (st : PendingSrvResolutionState) :
    destroyStep dirty (OwnedQuery.srvQuery st) = [AresEvent.deleted] := by
  simp [destroyStep, onAresSrvStartCallback]

/-- Caller callbacks during engine destruction count exactly the
non-cancelled address queries. -/
theorem destroyEngine_callbackCount (dirty : Bool) :
    ∀ qs : List OwnedQuery, (∀ q ∈ qs, queryNotCancelled q) →
      callbackCount (destroyEngine dirty qs) = (qs.filter isAddrQuery).length := by
  intro qs
  induction qs with
  | nil =>
    intro _
    simp [destroyEngine, callbackCount]
  | cons q rest ih =>
    intro hnc
    have hrest := ih (fun x hx => hnc x (List.mem_cons_of_mem q hx))
    have hq := hnc q (List.mem_cons_self q rest)
    cases q with
    | addrQuery st =>
      rw [destroyEngine_cons, callbackCount_append, destroyStep_addr dirty st hq, hrest]
      simp [callbackCount, isCallerCallback, isAddrQuery, Nat.add_comm]
    | srvQuery st =>
      rw [destroyEngine_cons, callbackCount_append, destroyStep_srv dirty st, hrest]
      simp [callbackCount, isCallerCallback, isAddrQuery]

/-- Every outstanding query is freed exactly once during engine
destruction. -/
theorem destroyEngine_deleted_count (dirty : Bool) :
    ∀ qs : List OwnedQuery, (∀ q ∈ qs, queryNotCancelled q) →
      (destroyEngine dirty qs).count AresEvent.deleted = qs.length := by
  intro qs
  induction qs with
  | nil =>
    intro _
    simp [destroyEngine]
  | cons q rest ih =>
    intro hnc
    have hrest := ih (fun x hx => hnc x (List.mem_cons_of_mem q hx))
    have hq := hnc q (List.mem_cons_self q rest)
    cases q with
    | addrQuery st =>
      rw [destroyEngine_cons, List.count_append, destroyStep_addr dirty st hq, hrest]
      simp [Nat.add_comm]
    | srvQuery st =>
      rw [destroyEngine_cons, List.count_append, destroyStep_srv dirty st, hrest]
      simp [Nat.add_comm]

/-- Claim C3 amended: destroying the engine with outstanding, non-cancelled
queries delivers the destruction outcome to each of them: every address
query fires exactly one failure/empty callback before being freed, every SRV
query is freed without any callback, the total number of caller callbacks
equals the number of outstanding address queries, and the number of
deletions equals the number of outstanding queries. -/
theorem C3_engine_destruction_callbacks :
    ∀ (dirty : Bool) (qs : List OwnedQuery),
      (∀ q ∈ qs, queryNotCancelled q) →
      callbackCount (destroyEngine dirty qs) = (qs.filter isAddrQuery).length ∧
      (destroyEngine dirty qs).count AresEvent.deleted = qs.length ∧
      (∀ st : PendingResolutionState, OwnedQuery.addrQuery st ∈ qs →
        destroyStep dirty (OwnedQuery.addrQuery st) =
          [AresEvent.callbackInvoked ResolutionStatus.Failure [], AresEvent.deleted]) ∧
      (∀ st : PendingSrvResolutionState, OwnedQuery.srvQuery st ∈ qs →
        destroyStep dirty (OwnedQuery.srvQuery st) = [AresEvent.deleted]) := by
  intro dirty qs hnc
  refine ⟨destroyEngine_callbackCount dirty qs hnc,
    destroyEngine_deleted_count dirty qs hnc, ?_, ?_⟩
  · intro st hmem
    exact destroyStep_addr dirty st (hnc _ hmem)
  · intro st hmem
    exact destroyStep_srv dirty st

/-- Witness for C3: destroying the engine with one non-cancelled address
query and one non-cancelled SRV query outstanding yields exactly one caller
callback and two deletions. -/
theorem C3_witness :
    callbackCount (destroyEngine false
      [OwnedQuery.addrQuery
        { dns_name_ := "host.example", completed_ := false, cancelled_ := false,
          owned_ := true, fallback_if_failed_ := false },
       OwnedQuery.srvQuery
        { dns_name_ := "srv.example", dns_lookup_family_ := DnsLookupFamily.Auto,
          completed_ := false, cancelled_ := false, owned_ := true }]) = 1 ∧
    (destroyEngine false
      [OwnedQuery.addrQuery
        { dns_name_ := "host.example", completed_ := false, cancelled_ := false,
          owned_ := true, fallback_if_failed_ := false },
       OwnedQuery.srvQuery
        { dns_name_ := "srv.example", dns_lookup_family_ := DnsLookupFamily.Auto,
          completed_ := false, cancelled_ := false, owned_ := true }]).count
      AresEvent.deleted = 2 := by
  have h := C3_engine_destruction_callbacks false
    [OwnedQuery.addrQuery
      { dns_name_ := "host.example", completed_ := false, cancelled_ := false,
        owned_ := true, fallback_if_failed_ := false },
     OwnedQuery.srvQuery
      { dns_name_ := "srv.example", dns_lookup_family_ := DnsLookupFamily.Auto,
        completed_ := false, cancelled_ := false, owned_ := true }]
    (by
      intro q hq
      fin_cases hq <;> rfl)
  exact ⟨h.1.trans (by decide), h.2.1.trans (by decide)⟩
